import Mathlib

/-!
Verification of `src/core/ca_bundle.py` (`ensure_curl_cffi_ca_bundle`).

The Python routine relocates certifi's CA bundle to an ASCII-only path on
Windows and publishes the new path through environment variables.  We embed
it shallowly: the process environment is an association list of variables,
the filesystem is a map from path strings to byte contents plus a set of
directories, the optional `certifi` dependency is an explicit capability
parameter, and `hashlib.sha256(...).hexdigest()` is implemented bit-for-bit
over `Nat` with explicit reduction modulo `2^32`.
-/

namespace CaBundle

/-- File contents: a sequence of bytes, each a `Nat < 256`. -/
abbrev Bytes := List Nat

/-! ## SHA-256 over `Nat` (the `hashlib.sha256(...).hexdigest()` call) -/

/-- Reduce modulo `2^32` (32-bit word arithmetic). -/
def w32 (n : Nat) : Nat := n % 4294967296

/-- Right rotation of a 32-bit word. -/
def rotr32 (n x : Nat) : Nat := w32 (x >>> n ||| x <<< (32 - n))

/-- Bitwise complement of a 32-bit word. -/
def not32 (x : Nat) : Nat := x ^^^ 4294967295

def bigSigma0 (x : Nat) : Nat := rotr32 2 x ^^^ rotr32 13 x ^^^ rotr32 22 x

def bigSigma1 (x : Nat) : Nat := rotr32 6 x ^^^ rotr32 11 x ^^^ rotr32 25 x

def smallSigma0 (x : Nat) : Nat := rotr32 7 x ^^^ rotr32 18 x ^^^ (x >>> 3)

def smallSigma1 (x : Nat) : Nat := rotr32 17 x ^^^ rotr32 19 x ^^^ (x >>> 10)

def ch (x y z : Nat) : Nat := (x &&& y) ^^^ (not32 x &&& z)

def maj (x y z : Nat) : Nat := (x &&& y) ^^^ (x &&& z) ^^^ (y &&& z)

/-- The 64 SHA-256 round constants (fractional parts of the cube roots of the
first 64 primes), written in decimal. -/
def K256 : List Nat :=
  [1116352408, 1899447441, 3049323471, 3921009573, 961987163, 1508970993,
   2453635748, 2870763221, 3624381080, 310598401, 607225278, 1426881987,
   1925078388, 2162078206, 2614888103, 3248222580, 3835390401, 4022224774,
   264347078, 604807628, 770255983, 1249150122, 1555081692, 1996064986,
   2554220882, 2821834349, 2952996808, 3210313671, 3336571891, 3584528711,
   113926993, 338241895, 666307205, 773529912, 1294757372, 1396182291,
   1695183700, 1986661051, 2177026350, 2456956037, 2730485921, 2820302411,
   3259730800, 3345764771, 3516065817, 3600352804, 4094571909, 275423344,
   430227734, 506948616, 659060556, 883997877, 958139571, 1322822218,
   1537002063, 1747873779, 1955562222, 2024104815, 2227730452, 2361852424,
   2428436474, 2756734187, 3204031479, 3329325298]

/-- The eight SHA-256 initial hash words (fractional parts of the square roots
of the first eight primes), written in decimal. -/
def H256 : List Nat :=
  [1779033703, 3144134277, 1013904242, 2773480762,
   1359893119, 2600822924, 528734635, 1541459225]

/-- Big-endian 64-bit encoding of a length counter. -/
def be64 (n : Nat) : Bytes :=
  [n >>> 56 % 256, n >>> 48 % 256, n >>> 40 % 256, n >>> 32 % 256,
   n >>> 24 % 256, n >>> 16 % 256, n >>> 8 % 256, n % 256]

/-- SHA-256 message padding: append `0x80`, zeros to 56 mod 64, then the
bit length as a big-endian 64-bit integer. -/
def sha256pad (msg : Bytes) : Bytes :=
  msg ++ [0x80] ++ List.replicate ((119 - msg.length % 64) % 64) 0 ++ be64 (msg.length * 8)

/-- Group bytes into big-endian 32-bit words. -/
def toWords : Bytes → List Nat
  | a :: b :: c :: d :: rest => (a * 16777216 + b * 65536 + c * 256 + d) :: toWords rest
  | _ => []

/-- Split a word sequence into 16-word blocks (`fuel` bounds the recursion so
that it is structural and kernel-reducible; `fuel = l.length` suffices). -/
def chunks16Aux : Nat → List Nat → List (List Nat)
  | 0, _ => []
  | _, [] => []
  | fuel + 1, l => l.take 16 :: chunks16Aux fuel (l.drop 16)

/-- Split a word sequence into 16-word blocks. -/
def chunks16 (l : List Nat) : List (List Nat) :=
  chunks16Aux l.length l

/-- Extend a 16-word block to the 64-word message schedule. -/
def extendW (ws : List Nat) : List Nat :=
  (List.range 48).foldl (fun acc _ =>
    let n := acc.length
    acc ++ [w32 (smallSigma1 (acc.getD (n - 2) 0) + acc.getD (n - 7) 0 +
                 smallSigma0 (acc.getD (n - 15) 0) + acc.getD (n - 16) 0)]) ws

/-- One SHA-256 compression step over the eight-word working state. -/
def round256 (st : Nat × Nat × Nat × Nat × Nat × Nat × Nat × Nat) (wk : Nat × Nat) :
    Nat × Nat × Nat × Nat × Nat × Nat × Nat × Nat :=
  match st with
  | (a, b, c, d, e, f, g, h) =>
    let t1 := w32 (h + bigSigma1 e + ch e f g + wk.2 + wk.1)
    let t2 := w32 (bigSigma0 a + maj a b c)
    (w32 (t1 + t2), a, b, c, w32 (d + t1), e, f, g)

/-- Process one 512-bit block, updating the eight-word hash value. -/
def compress (hs ws : List Nat) : List Nat :=
  match hs with
  | [h0, h1, h2, h3, h4, h5, h6, h7] =>
    match ((extendW ws).zip K256).foldl round256 (h0, h1, h2, h3, h4, h5, h6, h7) with
    | (a, b, c, d, e, f, g, h) =>
      [w32 (h0 + a), w32 (h1 + b), w32 (h2 + c), w32 (h3 + d),
       w32 (h4 + e), w32 (h5 + f), w32 (h6 + g), w32 (h7 + h)]
  | _ => hs

/-- The eight 32-bit words of the SHA-256 digest of `data`. -/
def sha256words (data : Bytes) : List Nat :=
  (chunks16 (toWords (sha256pad data))).foldl compress H256

/-- The sixteen lowercase hex digits, as Python's `hexdigest` prints them. -/
def hexDigits : List Char :=
  "0123456789abcdef".data

/-- The hex character of the low nibble of `n`. -/
def hexChar (n : Nat) : Char := hexDigits.getD (n % 16) '0'

/-- The eight hex characters of a 32-bit word, most significant nibble first. -/
def wordHex (w : Nat) : List Char :=
  [hexChar (w >>> 28), hexChar (w >>> 24), hexChar (w >>> 20), hexChar (w >>> 16),
   hexChar (w >>> 12), hexChar (w >>> 8), hexChar (w >>> 4), hexChar w]

/-- The 64 characters of `hashlib.sha256(data).hexdigest()`. -/
def sha256hexChars (data : Bytes) : List Char :=
  ((sha256words data).map wordHex).flatten

/-- `hashlib.sha256(data).hexdigest()` as a string. -/
def sha256hex (data : Bytes) : String :=
  String.mk (sha256hexChars data)

/-! ## The Python runtime state touched by the routine -/

/-- `_is_ascii` from `ca_bundle.py`: `s.encode("ascii")` succeeds exactly when
every code point of `s` is below 128. -/
def _is_ascii (s : String) : Bool :=
  s.data.all (fun c => c.toNat < 128)

/-- Whether one character sequence starts with another. -/
def isPrefixChars : List Char → List Char → Bool
  | [], _ => true
  | _ :: _, [] => false
  | a :: as, b :: bs => a == b && isPrefixChars as bs

/-- Python's `s.startswith(pre)`: comparison over code points. -/
def pyStartswith (s pre : String) : Bool :=
  isPrefixChars pre.data s.data

/-- The process environment: an association list of set variables. -/
abbrev Env := List (String × String)

/-- `os.environ.get(k)`: the value of `k` if set. -/
def envGet (e : Env) (k : String) : Option String :=
  (e.find? (fun p => p.1 == k)).map (fun p => p.2)

/-- `os.environ[k] = v`: set `k` to `v`, replacing any previous binding. -/
def envSet (e : Env) (k v : String) : Env :=
  (k, v) :: e.filter (fun p => p.1 != k)

/-- `os.environ.setdefault(k, v)`: set `k` to `v` only when `k` is unset. -/
def envSetdefault (e : Env) (k v : String) : Env :=
  if (envGet e k).isSome then e else envSet e k v

/-- Python truthiness of `os.environ.get(k)`: set and non-empty. -/
def envTruthy (e : Env) (k : String) : Bool :=
  match envGet e k with
  | some v => v != ""
  | none => false

/-- The filesystem: files with their byte contents, and existing directories. -/
structure FS where
  files : List (String × Bytes)
  dirs : List String
deriving DecidableEq, Repr

/-- The content of a file, if it exists. -/
def fsLookup (fs : FS) (path : String) : Option Bytes :=
  (fs.files.find? (fun p => p.1 == path)).map (fun p => p.2)

/-- `Path(path).exists()`. -/
def fsExists (fs : FS) (path : String) : Bool :=
  (fsLookup fs path).isSome

/-- `Path(path).write_bytes(v)`: create or overwrite the file. -/
def fsWrite (fs : FS) (path : String) (v : Bytes) : FS :=
  { fs with files := (path, v) :: fs.files.filter (fun p => p.1 != path) }

/-- Record a directory as existing (`exist_ok=True` keeps it unique). -/
def insertDir (ds : List String) (d : String) : List String :=
  if ds.contains d then ds else ds ++ [d]

/-- `dest_dir.mkdir(parents=True, exist_ok=True)`: record the directories on
the way to `dest_dir` as existing. -/
def mkdirParents (fs : FS) (newDirs : List String) : FS :=
  { fs with dirs := newDirs.foldl insertDir fs.dirs }

/-- The mutable process state the routine touches: environment and filesystem. -/
structure PyState where
  env : Env
  fs : FS
deriving DecidableEq, Repr

/-- Decidable equality of outcomes, so that concrete runs can be checked. -/
instance {ε α : Type} [DecidableEq ε] [DecidableEq α] : DecidableEq (Except ε α) := fun a b =>
  match a, b with
  | .error e, .error f =>
    if h : e = f then isTrue (by rw [h]) else isFalse (fun hh => h (Except.error.inj hh))
  | .ok x, .ok y =>
    if h : x = y then isTrue (by rw [h]) else isFalse (fun hh => h (Except.ok.inj hh))
  | .error _, .ok _ => isFalse (fun hh => Except.noConfusion hh)
  | .ok _, .error _ => isFalse (fun hh => Except.noConfusion hh)

/-- The destination path the routine builds for content `data`:
`<tmpdir>\sora2api\certs\cacert-<first 12 hex chars of sha256(data)>.pem`. -/
def destStr (tmpdir : String) (data : Bytes) : String :=
  tmpdir ++ "\\sora2api\\certs" ++ "\\cacert-" ++ String.mk ((sha256hexChars data).take 12) ++ ".pem"

/-- `ensure_curl_cffi_ca_bundle` from `ca_bundle.py`, line by line.

Ambient inputs become parameters: `platform` is `sys.platform`, `certifi`
describes the optional dependency (`none` when `import certifi` raises —
which the source catches; `some (.error e)` when the import succeeds but
`certifi.where()` raises — which the source does not guard; `some (.ok p)`
when it returns path `p`), `tmpdir` is `tempfile.gettempdir()`, and `s` is
the process state.  `Path` arithmetic uses the Windows separator because the
building branch runs only when `sys.platform` starts with `"win"`.  The
result is `.error e` when an exception escapes, otherwise the returned
`str | None` with the updated state. -/
def ensure_curl_cffi_ca_bundle (platform : String) (certifi : Option (Except String String))
    (tmpdir : String) (s : PyState) : Except String (Option String × PyState) :=
  -- if os.environ.get("CURL_CA_BUNDLE"): return os.environ["CURL_CA_BUNDLE"]
  if envTruthy s.env "CURL_CA_BUNDLE" then
    .ok (envGet s.env "CURL_CA_BUNDLE", s)
  -- if not sys.platform.startswith("win"): return None
  else if !(pyStartswith platform "win") then
    .ok (none, s)
  else
    match certifi with
    -- try: import certifi / except Exception: return None
    | none => .ok (none, s)
    | some whereResult =>
      match whereResult with
      -- src_path = certifi.where()  (outside the try block: a raise escapes)
      | .error e => .error e
      | .ok src_path =>
        -- if _is_ascii(src_path): return None
        if _is_ascii src_path then
          .ok (none, s)
        -- if not src.exists(): return None
        else if !(fsExists s.fs src_path) then
          .ok (none, s)
        else
          -- dest_dir = Path(tempfile.gettempdir()) / "sora2api" / "certs"
          let dest_dir := tmpdir ++ "\\sora2api\\certs"
          -- dest_dir.mkdir(parents=True, exist_ok=True)
          let fs1 := mkdirParents s.fs [tmpdir ++ "\\sora2api", dest_dir]
          -- data = src.read_bytes()
          let data := (fsLookup fs1 src_path).getD []
          -- digest = hashlib.sha256(data).hexdigest()[:12]
          let digest := String.mk ((sha256hexChars data).take 12)
          -- dest = dest_dir / f"cacert-{digest}.pem"
          let dest := dest_dir ++ "\\cacert-" ++ digest ++ ".pem"
          -- if not dest.exists(): dest.write_bytes(data)
          let fs2 := if fsExists fs1 dest then fs1 else fsWrite fs1 dest data
          -- os.environ["CURL_CA_BUNDLE"] = str(dest)
          let env1 := envSet s.env "CURL_CA_BUNDLE" dest
          -- os.environ.setdefault("SSL_CERT_FILE", str(dest))
          let env2 := envSetdefault env1 "SSL_CERT_FILE" dest
          -- return str(dest)
          .ok (some dest, ⟨env2, fs2⟩)

/-- The filesystem after the relocation branch: directories created, and the
destination file written exactly when it was absent. -/
def relocFS (tmpdir : String) (data : Bytes) (fs : FS) : FS :=
  if fsExists (mkdirParents fs [tmpdir ++ "\\sora2api", tmpdir ++ "\\sora2api\\certs"])
       (destStr tmpdir data)
  then mkdirParents fs [tmpdir ++ "\\sora2api", tmpdir ++ "\\sora2api\\certs"]
  else fsWrite (mkdirParents fs [tmpdir ++ "\\sora2api", tmpdir ++ "\\sora2api\\certs"])
         (destStr tmpdir data) data

/-- The environment after the relocation branch: `CURL_CA_BUNDLE` overwritten,
`SSL_CERT_FILE` set only if previously unset. -/
def relocEnv (tmpdir : String) (data : Bytes) (e : Env) : Env :=
  envSetdefault (envSet e "CURL_CA_BUNDLE" (destStr tmpdir data)) "SSL_CERT_FILE" (destStr tmpdir data)

/-! ## Basic lemmas about the state model -/

theorem find?_filter_ne {α : Type} (l : List (String × α)) (k x : String) (h : x ≠ k) :
    (l.filter (fun p => p.1 != k)).find? (fun p => p.1 == x) = l.find? (fun p => p.1 == x) := by
  have hxk : (x != k) = true := bne_iff_ne.mpr h
  have hkx : (k == x) = false := beq_eq_false_iff_ne.mpr fun e => h e.symm
  induction l with
  | nil => rfl
  | cons a l ih =>
    by_cases hk : a.1 = k
    · simp [List.filter_cons, List.find?_cons, hk, hkx, ih]
    · have hk' : (a.1 != k) = true := bne_iff_ne.mpr hk
      by_cases hx : a.1 = x
      · simp [List.filter_cons, List.find?_cons, hk', hx, hxk]
      · have hx' : (a.1 == x) = false := beq_eq_false_iff_ne.mpr hx
        simp [List.filter_cons, List.find?_cons, hk', hx', ih]

theorem envGet_envSet_self (e : Env) (k v : String) : envGet (envSet e k v) k = some v := by
  simp [envGet, envSet, List.find?]

theorem envGet_envSet_ne (e : Env) (k v x : String) (h : x ≠ k) :
    envGet (envSet e k v) x = envGet e x := by
  have hk : (k == x) = false := by simp; exact fun hkx => h hkx.symm
  simp [envGet, envSet, List.find?, hk, find?_filter_ne e k x h]

theorem envSetdefault_of_isSome (e : Env) (k v : String) (h : (envGet e k).isSome) :
    envSetdefault e k v = e := by
  simp [envSetdefault, h]

theorem envGet_envSetdefault_of_none (e : Env) (k v : String) (h : envGet e k = none) :
    envGet (envSetdefault e k v) k = some v := by
  simp [envSetdefault, h, envGet_envSet_self]

theorem envTruthy_exists (e : Env) (k : String) (h : envTruthy e k = true) :
    ∃ v, envGet e k = some v ∧ v ≠ "" := by
  unfold envTruthy at h
  match hv : envGet e k with
  | some v => rw [hv] at h; simp at h; exact ⟨v, rfl, h⟩
  | none => rw [hv] at h; simp at h

theorem fsLookup_fsWrite (fs : FS) (d : String) (v : Bytes) (x : String) :
    fsLookup (fsWrite fs d v) x = if x = d then some v else fsLookup fs x := by
  by_cases h : x = d
  · simp [fsLookup, fsWrite, List.find?, h]
  · have hd : (d == x) = false := by simp; exact fun hdx => h hdx.symm
    simp [fsLookup, fsWrite, List.find?, hd, h, find?_filter_ne fs.files d x h]

theorem fsLookup_mkdirParents (fs : FS) (ds : List String) (x : String) :
    fsLookup (mkdirParents fs ds) x = fsLookup fs x := rfl

theorem dirs_fsWrite (fs : FS) (d : String) (v : Bytes) : (fsWrite fs d v).dirs = fs.dirs := rfl

theorem mem_insertDir_self (ds : List String) (d : String) : d ∈ insertDir ds d := by
  by_cases h : d ∈ ds <;> simp [insertDir, h]

theorem mem_insertDir_of_mem (ds : List String) (d x : String) (h : x ∈ ds) :
    x ∈ insertDir ds d := by
  by_cases hc : d ∈ ds <;> simp [insertDir, hc, h]

theorem insertDir_eq_of_mem (ds : List String) (d : String) (h : d ∈ ds) :
    insertDir ds d = ds := by
  simp [insertDir, h]

theorem mem_foldl_insertDir_of_mem (ds : List String) (acc : List String) (x : String)
    (h : x ∈ acc) : x ∈ ds.foldl insertDir acc := by
  induction ds generalizing acc with
  | nil => exact h
  | cons d ds ih => exact ih _ (mem_insertDir_of_mem acc d x h)

theorem mem_foldl_insertDir_self (ds : List String) (acc : List String) (x : String)
    (h : x ∈ ds) : x ∈ ds.foldl insertDir acc := by
  induction ds generalizing acc with
  | nil => cases h
  | cons d ds ih =>
    cases h with
    | head => exact mem_foldl_insertDir_of_mem ds _ x (mem_insertDir_self acc x)
    | tail _ h => exact ih _ h

theorem foldl_insertDir_eq_of_subset (ds acc : List String) (h : ∀ d ∈ ds, d ∈ acc) :
    ds.foldl insertDir acc = acc := by
  induction ds with
  | nil => rfl
  | cons d ds ih =>
    rw [List.foldl_cons, insertDir_eq_of_mem acc d (h d (by simp))]
    exact ih fun x hx => h x (by simp [hx])

theorem mkdirParents_eq_self (fs : FS) (ds : List String) (h : ∀ d ∈ ds, d ∈ fs.dirs) :
    mkdirParents fs ds = fs := by
  cases fs with
  | mk files dirs => simp [mkdirParents, foldl_insertDir_eq_of_subset ds dirs h]

theorem mem_dirs_mkdirParents (fs : FS) (ds : List String) (d : String) (h : d ∈ ds) :
    d ∈ (mkdirParents fs ds).dirs :=
  mem_foldl_insertDir_self ds fs.dirs d h

/-! ## ASCII facts about the produced names -/

theorem hexChar_lt_128 (n : Nat) : (hexChar n).toNat < 128 := by
  have h16 : ∀ m, m < 16 → (hexDigits.getD m '0').toNat < 128 := by decide
  exact h16 (n % 16) (Nat.mod_lt _ (by decide))

theorem wordHex_ascii (w : Nat) : ∀ c ∈ wordHex w, c.toNat < 128 := by
  intro c hc
  simp [wordHex] at hc
  rcases hc with h | h | h | h | h | h | h | h <;> rw [h] <;> exact hexChar_lt_128 _

theorem sha256hexChars_ascii (data : Bytes) : ∀ c ∈ sha256hexChars data, c.toNat < 128 := by
  intro c hc
  simp only [sha256hexChars, List.mem_flatten, List.mem_map] at hc
  obtain ⟨l, ⟨w, _, hw⟩, hcl⟩ := hc
  exact wordHex_ascii w c (hw ▸ hcl)

theorem is_ascii_append (a b : String) :
    _is_ascii (a ++ b) = (_is_ascii a && _is_ascii b) := by
  simp [_is_ascii, String.data_append, List.all_append]

theorem is_ascii_destStr (tmpdir : String) (data : Bytes) (h : _is_ascii tmpdir = true) :
    _is_ascii (destStr tmpdir data) = true := by
  have htake : _is_ascii (String.mk ((sha256hexChars data).take 12)) = true := by
    simp only [_is_ascii, List.all_eq_true]
    intro c hc
    simpa using sha256hexChars_ascii data c (List.mem_of_mem_take hc)
  simp [destStr, is_ascii_append, h, htake]
  constructor <;> decide

theorem destStr_ne_empty (t : String) (d : Bytes) : destStr t d ≠ "" := by
  intro h
  have h2 : (destStr t d).data = ("" : String).data := congrArg String.data h
  unfold destStr at h2
  rw [String.data_append, show ((".pem" : String).data = ['.', 'p', 'e', 'm']) from rfl] at h2
  exact List.cons_ne_nil _ _ (List.append_eq_nil.mp h2).2

/-! ## The relocation branch's resulting state -/

theorem envGet_relocEnv_main (t : String) (d : Bytes) (e : Env) :
    envGet (relocEnv t d e) "CURL_CA_BUNDLE" = some (destStr t d) := by
  unfold relocEnv envSetdefault
  split
  · exact envGet_envSet_self e _ _
  · rw [envGet_envSet_ne _ _ _ _ (by decide)]
    exact envGet_envSet_self e _ _

theorem envTruthy_relocEnv_main (t : String) (d : Bytes) (e : Env) :
    envTruthy (relocEnv t d e) "CURL_CA_BUNDLE" = true := by
  simp [envTruthy, envGet_relocEnv_main, destStr_ne_empty]

theorem envGet_relocEnv_ssl_of_none (t : String) (d : Bytes) (e : Env)
    (h : envGet e "SSL_CERT_FILE" = none) :
    envGet (relocEnv t d e) "SSL_CERT_FILE" = some (destStr t d) := by
  have h1 : envGet (envSet e "CURL_CA_BUNDLE" (destStr t d)) "SSL_CERT_FILE" = none := by
    rw [envGet_envSet_ne _ _ _ _ (by decide)]; exact h
  unfold relocEnv
  exact envGet_envSetdefault_of_none _ _ _ h1

theorem envGet_relocEnv_ssl_of_some (t : String) (d : Bytes) (e : Env) (v : String)
    (h : envGet e "SSL_CERT_FILE" = some v) :
    envGet (relocEnv t d e) "SSL_CERT_FILE" = some v := by
  have h1 : envGet (envSet e "CURL_CA_BUNDLE" (destStr t d)) "SSL_CERT_FILE" = some v := by
    rw [envGet_envSet_ne _ _ _ _ (by decide)]; exact h
  unfold relocEnv
  rw [envSetdefault_of_isSome _ _ _ (by simp [h1])]
  exact h1

theorem dirs_relocFS (t : String) (d : Bytes) (fs : FS) :
    (relocFS t d fs).dirs
      = (mkdirParents fs [t ++ "\\sora2api", t ++ "\\sora2api\\certs"]).dirs := by
  unfold relocFS
  split <;> rfl

theorem mem_dirs_relocFS (t : String) (d : Bytes) (fs : FS) (x : String)
    (h : x ∈ [t ++ "\\sora2api", t ++ "\\sora2api\\certs"]) : x ∈ (relocFS t d fs).dirs := by
  rw [dirs_relocFS]
  exact mem_dirs_mkdirParents _ _ _ h

theorem fsExists_relocFS_dest (t : String) (d : Bytes) (fs : FS) :
    fsExists (relocFS t d fs) (destStr t d) = true := by
  unfold relocFS
  split
  · assumption
  · simp [fsExists, fsLookup_fsWrite]

theorem fsLookup_relocFS_of (t : String) (d : Bytes) (fs : FS) (p : String)
    (hsrc : fsLookup fs p = some d) : fsLookup (relocFS t d fs) p = some d := by
  unfold relocFS
  split
  · simpa [fsLookup_mkdirParents] using hsrc
  · simp [fsLookup_fsWrite, fsLookup_mkdirParents, hsrc]

/-- Core evaluation lemma: on an affected platform, with no override, a
non-ASCII source path and an existing source file, the routine relocates and
returns the content-addressed destination with the updated state. -/
theorem ensure_build (platform tmpdir p : String) (data : Bytes) (s : PyState)
    (h1 : envTruthy s.env "CURL_CA_BUNDLE" = false)
    (hwin : pyStartswith platform "win" = true)
    (hasc : _is_ascii p = false)
    (hsrc : fsLookup s.fs p = some data) :
    ensure_curl_cffi_ca_bundle platform (some (.ok p)) tmpdir s =
      .ok (some (destStr tmpdir data),
        ⟨relocEnv tmpdir data s.env, relocFS tmpdir data s.fs⟩) := by
  have hex : fsExists s.fs p = true := by simp [fsExists, hsrc]
  simp [ensure_curl_cffi_ca_bundle, h1, hwin, hasc, hex, fsLookup_mkdirParents, hsrc,
    relocEnv, relocFS, destStr]

theorem relocFS_idem (t : String) (d : Bytes) (fs : FS) :
    relocFS t d (relocFS t d fs) = relocFS t d fs := by
  have hmk : mkdirParents (relocFS t d fs) [t ++ "\\sora2api", t ++ "\\sora2api\\certs"]
      = relocFS t d fs :=
    mkdirParents_eq_self _ _ (fun x hx => mem_dirs_relocFS t d fs x hx)
  show (if fsExists (mkdirParents (relocFS t d fs) [t ++ "\\sora2api", t ++ "\\sora2api\\certs"])
             (destStr t d) = true
        then mkdirParents (relocFS t d fs) [t ++ "\\sora2api", t ++ "\\sora2api\\certs"]
        else fsWrite (mkdirParents (relocFS t d fs) [t ++ "\\sora2api", t ++ "\\sora2api\\certs"])
               (destStr t d) d)
      = relocFS t d fs
  rw [hmk, if_pos (fsExists_relocFS_dest t d fs)]

/-! ## The claims -/

/-- C1: for a non-ASCII source path pointing to an existing file on an
affected platform, with no pre-set override, the destination path is the
deterministic content-addressed `destStr tmpdir data` (first 12 hex characters
of the SHA-256 digest of the content).  Calling the routine again — whether on
the state the first call produced (the override then short-circuits) or with
the override cleared again (the destination is then found already present) —
yields the identical destination path, and the filesystem of the first call's
result is not changed again: the destination file is written at most once. -/
theorem C1_content_addressed_idempotent (platform tmpdir p : String) (data : Bytes)
    (e1 e2 : Env) (fs : FS)
    (hwin : pyStartswith platform "win" = true)
    (h1 : envTruthy e1 "CURL_CA_BUNDLE" = false)
    (h2 : envTruthy e2 "CURL_CA_BUNDLE" = false)
    (hasc : _is_ascii p = false)
    (hsrc : fsLookup fs p = some data) :
    ensure_curl_cffi_ca_bundle platform (some (.ok p)) tmpdir ⟨e1, fs⟩
      = .ok (some (destStr tmpdir data),
             ⟨relocEnv tmpdir data e1, relocFS tmpdir data fs⟩) ∧
    ensure_curl_cffi_ca_bundle platform (some (.ok p)) tmpdir
        ⟨relocEnv tmpdir data e1, relocFS tmpdir data fs⟩
      = .ok (some (destStr tmpdir data),
             ⟨relocEnv tmpdir data e1, relocFS tmpdir data fs⟩) ∧
    ensure_curl_cffi_ca_bundle platform (some (.ok p)) tmpdir ⟨e2, relocFS tmpdir data fs⟩
      = .ok (some (destStr tmpdir data),
             ⟨relocEnv tmpdir data e2, relocFS tmpdir data fs⟩) := by
  refine ⟨ensure_build platform tmpdir p data ⟨e1, fs⟩ h1 hwin hasc hsrc, ?_, ?_⟩
  · have ht := envTruthy_relocEnv_main tmpdir data e1
    simp [ensure_curl_cffi_ca_bundle, ht, envGet_relocEnv_main]
  · have hsrc2 : fsLookup (relocFS tmpdir data fs) p = some data :=
      fsLookup_relocFS_of _ _ _ _ hsrc
    have hb2 := ensure_build platform tmpdir p data ⟨e2, relocFS tmpdir data fs⟩ h2 hwin hasc hsrc2
    rw [hb2, relocFS_idem]

/-- C1 witness: the theorem applied at a concrete one-byte bundle in a
Chinese-named folder. -/
theorem C1_witness :
    ensure_curl_cffi_ca_bundle "win32" (some (.ok "C:\\用户\\cacert.pem")) "C:\\T"
        ⟨[], ⟨[("C:\\用户\\cacert.pem", [97])], []⟩⟩
      = .ok (some (destStr "C:\\T" [97]),
             ⟨relocEnv "C:\\T" [97] [], relocFS "C:\\T" [97] ⟨[("C:\\用户\\cacert.pem", [97])], []⟩⟩) ∧
    ensure_curl_cffi_ca_bundle "win32" (some (.ok "C:\\用户\\cacert.pem")) "C:\\T"
        ⟨relocEnv "C:\\T" [97] [], relocFS "C:\\T" [97] ⟨[("C:\\用户\\cacert.pem", [97])], []⟩⟩
      = .ok (some (destStr "C:\\T" [97]),
             ⟨relocEnv "C:\\T" [97] [], relocFS "C:\\T" [97] ⟨[("C:\\用户\\cacert.pem", [97])], []⟩⟩) ∧
    ensure_curl_cffi_ca_bundle "win32" (some (.ok "C:\\用户\\cacert.pem")) "C:\\T"
        ⟨[("PATH", "C:\\bin")], relocFS "C:\\T" [97] ⟨[("C:\\用户\\cacert.pem", [97])], []⟩⟩
      = .ok (some (destStr "C:\\T" [97]),
             ⟨relocEnv "C:\\T" [97] [("PATH", "C:\\bin")],
              relocFS "C:\\T" [97] ⟨[("C:\\用户\\cacert.pem", [97])], []⟩⟩) :=
  C1_content_addressed_idempotent "win32" "C:\\T" "C:\\用户\\cacert.pem" [97]
    [] [("PATH", "C:\\bin")] ⟨[("C:\\用户\\cacert.pem", [97])], []⟩
    (by decide) (by decide) (by decide) (by decide) (by decide)

/-- C2: a pre-set non-empty `CURL_CA_BUNDLE` is returned verbatim and the
whole state (environment and filesystem) is untouched, for every platform,
provider and temp directory. -/
theorem C2_preset_override (platform tmpdir : String) (certifi : Option (Except String String))
    (s : PyState) (v : String)
    (hv : envGet s.env "CURL_CA_BUNDLE" = some v) (hne : v ≠ "") :
    ensure_curl_cffi_ca_bundle platform certifi tmpdir s = .ok (some v, s) := by
  have ht : envTruthy s.env "CURL_CA_BUNDLE" = true := by simp [envTruthy, hv, hne]
  simp [ensure_curl_cffi_ca_bundle, ht, hv]

/-- C2 witness: the spec's scenario, `CURL_CA_BUNDLE` pre-set to
`/etc/ssl/custom.pem`. -/
theorem C2_preset_override_witness :
    ensure_curl_cffi_ca_bundle "linux" none "/tmp"
        ⟨[("CURL_CA_BUNDLE", "/etc/ssl/custom.pem")], ⟨[], []⟩⟩
      = .ok (some "/etc/ssl/custom.pem",
             ⟨[("CURL_CA_BUNDLE", "/etc/ssl/custom.pem")], ⟨[], []⟩⟩) :=
  C2_preset_override "linux" "/tmp" none
    ⟨[("CURL_CA_BUNDLE", "/etc/ssl/custom.pem")], ⟨[], []⟩⟩ "/etc/ssl/custom.pem"
    (by decide) (by decide)

/-- C5: after a successful relocation, `CURL_CA_BUNDLE` equals the destination
path (overwritten unconditionally), and `SSL_CERT_FILE` equals the destination
path if it was previously unset while a previously set value is preserved. -/
theorem C5_env_publication (platform tmpdir p : String) (data : Bytes) (s : PyState)
    (hwin : pyStartswith platform "win" = true)
    (h1 : envTruthy s.env "CURL_CA_BUNDLE" = false)
    (hasc : _is_ascii p = false)
    (hsrc : fsLookup s.fs p = some data) :
    ∃ st : PyState,
      ensure_curl_cffi_ca_bundle platform (some (.ok p)) tmpdir s
        = .ok (some (destStr tmpdir data), st) ∧
      envGet st.env "CURL_CA_BUNDLE" = some (destStr tmpdir data) ∧
      (envGet s.env "SSL_CERT_FILE" = none →
        envGet st.env "SSL_CERT_FILE" = some (destStr tmpdir data)) ∧
      (∀ v, envGet s.env "SSL_CERT_FILE" = some v →
        envGet st.env "SSL_CERT_FILE" = some v) :=
  ⟨⟨relocEnv tmpdir data s.env, relocFS tmpdir data s.fs⟩,
    ensure_build platform tmpdir p data s h1 hwin hasc hsrc,
    envGet_relocEnv_main _ _ _,
    fun h => envGet_relocEnv_ssl_of_none _ _ _ h,
    fun v h => envGet_relocEnv_ssl_of_some _ _ _ v h⟩

/-- C5 witness: concrete relocation with `SSL_CERT_FILE` unset. -/
theorem C5_env_publication_witness :
    ∃ st : PyState,
      ensure_curl_cffi_ca_bundle "win32" (some (.ok "C:\\用户\\cacert.pem")) "C:\\T"
          ⟨[], ⟨[("C:\\用户\\cacert.pem", [97])], []⟩⟩
        = .ok (some (destStr "C:\\T" [97]), st) ∧
      envGet st.env "CURL_CA_BUNDLE" = some (destStr "C:\\T" [97]) ∧
      (envGet ([] : Env) "SSL_CERT_FILE" = none →
        envGet st.env "SSL_CERT_FILE" = some (destStr "C:\\T" [97])) ∧
      (∀ v, envGet ([] : Env) "SSL_CERT_FILE" = some v →
        envGet st.env "SSL_CERT_FILE" = some v) :=
  C5_env_publication "win32" "C:\\T" "C:\\用户\\cacert.pem" [97]
    ⟨[], ⟨[("C:\\用户\\cacert.pem", [97])], []⟩⟩
    (by decide) (by decide) (by decide) (by decide)

/-- C6: on every non-affected platform (not Windows-like), with no pre-set
override, the routine returns the no-action sentinel and the state —
environment and filesystem alike — is exactly the input state, for every
provider configuration and temp directory. -/
theorem C6_non_affected_platform_noop (platform tmpdir : String)
    (certifi : Option (Except String String)) (s : PyState)
    (h1 : envTruthy s.env "CURL_CA_BUNDLE" = false)
    (hwin : pyStartswith platform "win" = false) :
    ensure_curl_cffi_ca_bundle platform certifi tmpdir s = .ok (none, s) := by
  simp [ensure_curl_cffi_ca_bundle, h1, hwin]

/-- C6 witness: macOS, with a provider that would even raise if consulted. -/
theorem C6_non_affected_platform_noop_witness :
    ensure_curl_cffi_ca_bundle "darwin" (some (.error "boom")) "/tmp"
        ⟨[("SSL_CERT_FILE", "x")], ⟨[("f", [1])], ["d"]⟩⟩
      = .ok (none, ⟨[("SSL_CERT_FILE", "x")], ⟨[("f", [1])], ["d"]⟩⟩) :=
  C6_non_affected_platform_noop "darwin" "/tmp" (some (.error "boom"))
    ⟨[("SSL_CERT_FILE", "x")], ⟨[("f", [1])], ["d"]⟩⟩ (by decide) (by decide)

/-- C7: an ASCII-only source path on an affected platform (no pre-set
override) yields the no-action sentinel with the state untouched. -/
theorem C7_ascii_source_noop (platform tmpdir p : String) (s : PyState)
    (h1 : envTruthy s.env "CURL_CA_BUNDLE" = false)
    (hwin : pyStartswith platform "win" = true)
    (hasc : _is_ascii p = true) :
    ensure_curl_cffi_ca_bundle platform (some (.ok p)) tmpdir s = .ok (none, s) := by
  simp [ensure_curl_cffi_ca_bundle, h1, hwin, hasc]

/-- C7 witness: an ASCII certifi path on Windows. -/
theorem C7_ascii_source_noop_witness :
    ensure_curl_cffi_ca_bundle "win32" (some (.ok "C:\\certifi\\cacert.pem")) "C:\\T"
        ⟨[], ⟨[("C:\\certifi\\cacert.pem", [97])], []⟩⟩
      = .ok (none, ⟨[], ⟨[("C:\\certifi\\cacert.pem", [97])], []⟩⟩) :=
  C7_ascii_source_noop "win32" "C:\\T" "C:\\certifi\\cacert.pem"
    ⟨[], ⟨[("C:\\certifi\\cacert.pem", [97])], []⟩⟩ (by decide) (by decide) (by decide)

/-- C8: a non-ASCII source path that does not exist on disk yields the
no-action sentinel and the state — directories, files and environment — is
exactly the input state. -/
theorem C8_missing_source_noop (platform tmpdir p : String) (s : PyState)
    (h1 : envTruthy s.env "CURL_CA_BUNDLE" = false)
    (hwin : pyStartswith platform "win" = true)
    (hasc : _is_ascii p = false)
    (hex : fsExists s.fs p = false) :
    ensure_curl_cffi_ca_bundle platform (some (.ok p)) tmpdir s = .ok (none, s) := by
  simp [ensure_curl_cffi_ca_bundle, h1, hwin, hasc, hex]

/-- C8 witness: a non-ASCII certifi path with an empty filesystem. -/
theorem C8_missing_source_noop_witness :
    ensure_curl_cffi_ca_bundle "win32" (some (.ok "C:\\用户\\cacert.pem")) "C:\\T"
        ⟨[], ⟨[], []⟩⟩
      = .ok (none, ⟨[], ⟨[], []⟩⟩) :=
  C8_missing_source_noop "win32" "C:\\T" "C:\\用户\\cacert.pem" ⟨[], ⟨[], []⟩⟩
    (by decide) (by decide) (by decide) (by decide)

/-- C3 (amended): the path suffix the routine appends is built from an ASCII
literal and a hex digest, so the destination path it produces is ASCII-only
whenever the system temp directory is — but not for every possible temp
directory, as the unamended claim said. -/
theorem C3_dest_ascii_when_tmp_ascii (platform tmpdir : String)
    (certifi : Option (Except String String)) (s st : PyState) (dest : String)
    (h1 : envTruthy s.env "CURL_CA_BUNDLE" = false)
    (htmp : _is_ascii tmpdir = true)
    (hrun : ensure_curl_cffi_ca_bundle platform certifi tmpdir s = .ok (some dest, st)) :
    _is_ascii dest = true := by
  unfold ensure_curl_cffi_ca_bundle at hrun
  rw [if_neg (by simp [h1])] at hrun
  by_cases hw : pyStartswith platform "win" = true
  · rw [hw] at hrun
    rw [if_neg (by simp)] at hrun
    cases certifi with
    | none => simp at hrun
    | some w =>
      cases w with
      | error e => simp at hrun
      | ok p =>
        dsimp only [] at hrun
        by_cases ha : _is_ascii p = true
        · rw [if_pos ha] at hrun; simp at hrun
        · rw [if_neg ha] at hrun
          by_cases he : fsExists s.fs p = true
          · rw [he] at hrun
            rw [if_neg (by simp)] at hrun
            simp only [Except.ok.injEq, Prod.mk.injEq, Option.some.injEq] at hrun
            obtain ⟨hd, -⟩ := hrun
            rw [← hd]
            exact is_ascii_destStr tmpdir _ htmp
          · rw [Bool.not_eq_true] at he
            rw [he] at hrun
            rw [if_pos (by simp)] at hrun
            simp at hrun
  · rw [Bool.not_eq_true] at hw
    rw [hw] at hrun
    rw [if_pos (by simp)] at hrun
    simp at hrun

set_option maxRecDepth 100000 in
set_option maxHeartbeats 1000000 in
/-- C3 (amended) witness: with the ASCII temp directory `C:\T`, the produced
destination path is ASCII. -/
theorem C3_dest_ascii_when_tmp_ascii_witness :
    _is_ascii "C:\\T\\sora2api\\certs\\cacert-ca978112ca1b.pem" = true :=
  C3_dest_ascii_when_tmp_ascii "win32" "C:\\T" (some (.ok "C:\\用户\\cacert.pem"))
    ⟨[], ⟨[("C:\\用户\\cacert.pem", [97])], []⟩⟩
    ⟨[("SSL_CERT_FILE", "C:\\T\\sora2api\\certs\\cacert-ca978112ca1b.pem"),
      ("CURL_CA_BUNDLE", "C:\\T\\sora2api\\certs\\cacert-ca978112ca1b.pem")],
     ⟨[("C:\\T\\sora2api\\certs\\cacert-ca978112ca1b.pem", [97]), ("C:\\用户\\cacert.pem", [97])],
      ["C:\\T\\sora2api", "C:\\T\\sora2api\\certs"]⟩⟩
    "C:\\T\\sora2api\\certs\\cacert-ca978112ca1b.pem"
    (by decide) (by decide) (by decide)

set_option maxRecDepth 100000 in
set_option maxHeartbeats 1000000 in
/-- C3 counterexample: with the non-ASCII temp directory `C:\用户\Temp`, the
routine produces a destination path that is not ASCII-only, refuting the claim
that the destination is ASCII for every possible system temp directory. -/
theorem C3_counterexample :
    ensure_curl_cffi_ca_bundle "win32" (some (.ok "C:\\用户\\cacert.pem")) "C:\\用户\\Temp"
        ⟨[], ⟨[("C:\\用户\\cacert.pem", [97])], []⟩⟩
      = .ok (some "C:\\用户\\Temp\\sora2api\\certs\\cacert-ca978112ca1b.pem",
             ⟨[("SSL_CERT_FILE", "C:\\用户\\Temp\\sora2api\\certs\\cacert-ca978112ca1b.pem"),
               ("CURL_CA_BUNDLE", "C:\\用户\\Temp\\sora2api\\certs\\cacert-ca978112ca1b.pem")],
              ⟨[("C:\\用户\\Temp\\sora2api\\certs\\cacert-ca978112ca1b.pem", [97]),
                ("C:\\用户\\cacert.pem", [97])],
               ["C:\\用户\\Temp\\sora2api", "C:\\用户\\Temp\\sora2api\\certs"]⟩⟩) ∧
    _is_ascii "C:\\用户\\Temp\\sora2api\\certs\\cacert-ca978112ca1b.pem" = false := by
  constructor
  · decide
  · decide

/-- C4 (amended): if the provider is unavailable — `import certifi` raises,
which the source catches — the routine returns the no-action sentinel with the
state unchanged; but an error raised by `certifi.where()` itself, after a
successful import, propagates to the caller because that call sits outside the
`try` block. -/
theorem C4_soft_import_hard_where (platform tmpdir : String) (s : PyState) (e : String)
    (h1 : envTruthy s.env "CURL_CA_BUNDLE" = false)
    (hwin : pyStartswith platform "win" = true) :
    ensure_curl_cffi_ca_bundle platform none tmpdir s = .ok (none, s) ∧
    ensure_curl_cffi_ca_bundle platform (some (.error e)) tmpdir s = .error e := by
  constructor <;> simp [ensure_curl_cffi_ca_bundle, h1, hwin]

/-- C4 (amended) witness: a missing provider degrades to no action, while a
raising path resolution propagates. -/
theorem C4_soft_import_hard_where_witness :
    ensure_curl_cffi_ca_bundle "win32" none "C:\\T" ⟨[], ⟨[], []⟩⟩
      = .ok (none, ⟨[], ⟨[], []⟩⟩) ∧
    ensure_curl_cffi_ca_bundle "win32" (some (.error "OSError")) "C:\\T" ⟨[], ⟨[], []⟩⟩
      = .error "OSError" :=
  C4_soft_import_hard_where "win32" "C:\\T" ⟨[], ⟨[], []⟩⟩ "OSError" (by decide) (by decide)

/-- C4 counterexample: with the provider importable but its path resolution
raising, the routine does not return the no-action sentinel — the error
propagates to the caller, refuting the claim for this error class. -/
theorem C4_counterexample :
    ensure_curl_cffi_ca_bundle "win32" (some (.error "OSError")) "C:\\T" ⟨[], ⟨[], []⟩⟩
      = .error "OSError" := by
  decide

/-- C9: whenever the routine returns the no-action sentinel, the resulting
state — both environment variables and the filesystem — is exactly the input
state: environment mutation happens only together with a returned path. -/
theorem C9_no_action_frame (platform tmpdir : String) (certifi : Option (Except String String))
    (s st : PyState)
    (hrun : ensure_curl_cffi_ca_bundle platform certifi tmpdir s = .ok (none, st)) :
    st = s := by
  unfold ensure_curl_cffi_ca_bundle at hrun
  by_cases h1 : envTruthy s.env "CURL_CA_BUNDLE" = true
  · obtain ⟨v, hv, hne⟩ := envTruthy_exists _ _ h1
    rw [if_pos h1, hv] at hrun
    simp at hrun
  · rw [if_neg h1] at hrun
    by_cases hw : pyStartswith platform "win" = true
    · rw [hw] at hrun
      rw [if_neg (by simp)] at hrun
      cases certifi with
      | none => simp at hrun; exact hrun.symm
      | some w =>
        cases w with
        | error e => simp at hrun
        | ok p =>
          dsimp only [] at hrun
          by_cases ha : _is_ascii p = true
          · rw [if_pos ha] at hrun; simp at hrun; exact hrun.symm
          · rw [if_neg ha] at hrun
            by_cases he : fsExists s.fs p = true
            · rw [he] at hrun
              rw [if_neg (by simp)] at hrun
              simp at hrun
            · rw [Bool.not_eq_true] at he
              rw [he] at hrun
              rw [if_pos (by simp)] at hrun
              simp at hrun; exact hrun.symm
    · rw [Bool.not_eq_true] at hw
      rw [hw] at hrun
      rw [if_pos (by simp)] at hrun
      simp at hrun; exact hrun.symm

/-- C9 witness: a no-action run (non-Windows platform) leaves a non-trivial
state untouched. -/
theorem C9_no_action_frame_witness :
    (⟨[("SSL_CERT_FILE", "x")], ⟨[("f", [1])], ["d"]⟩⟩ : PyState)
      = ⟨[("SSL_CERT_FILE", "x")], ⟨[("f", [1])], ["d"]⟩⟩ :=
  C9_no_action_frame "darwin" "/tmp" none
    ⟨[("SSL_CERT_FILE", "x")], ⟨[("f", [1])], ["d"]⟩⟩
    ⟨[("SSL_CERT_FILE", "x")], ⟨[("f", [1])], ["d"]⟩⟩
    (by decide)

/-- C10: when the destination file already exists — with arbitrary bytes
`old`, which the routine never inspects — the write is skipped, every file's
content is left unchanged, and the destination path is still returned and
published in `CURL_CA_BUNDLE`, pointing at the pre-existing content. -/
theorem C10_preexisting_dest_kept (platform tmpdir p : String) (data old : Bytes) (s : PyState)
    (hwin : pyStartswith platform "win" = true)
    (h1 : envTruthy s.env "CURL_CA_BUNDLE" = false)
    (hasc : _is_ascii p = false)
    (hsrc : fsLookup s.fs p = some data)
    (hpre : fsLookup s.fs (destStr tmpdir data) = some old) :
    ∃ st : PyState,
      ensure_curl_cffi_ca_bundle platform (some (.ok p)) tmpdir s
        = .ok (some (destStr tmpdir data), st) ∧
      st.fs.files = s.fs.files ∧
      fsLookup st.fs (destStr tmpdir data) = some old ∧
      envGet st.env "CURL_CA_BUNDLE" = some (destStr tmpdir data) := by
  have hexd : fsExists
      (mkdirParents s.fs [tmpdir ++ "\\sora2api", tmpdir ++ "\\sora2api\\certs"])
      (destStr tmpdir data) = true := by
    simp [fsExists, fsLookup_mkdirParents, hpre]
  have hfs : relocFS tmpdir data s.fs
      = mkdirParents s.fs [tmpdir ++ "\\sora2api", tmpdir ++ "\\sora2api\\certs"] := by
    unfold relocFS
    rw [if_pos hexd]
  refine ⟨⟨relocEnv tmpdir data s.env, relocFS tmpdir data s.fs⟩,
    ensure_build platform tmpdir p data s h1 hwin hasc hsrc, ?_, ?_,
    envGet_relocEnv_main _ _ _⟩
  · rw [hfs]; rfl
  · show fsLookup (relocFS tmpdir data s.fs) (destStr tmpdir data) = some old
    rw [hfs, fsLookup_mkdirParents]
    exact hpre

set_option maxRecDepth 100000 in
set_option maxHeartbeats 1000000 in
/-- C10 witness: the destination file pre-exists with bytes `[98, 99]` that
differ from the source's `[97]`; the run returns the destination path while
the file keeps the differing bytes. -/
theorem C10_preexisting_dest_kept_witness :
    ∃ st : PyState,
      ensure_curl_cffi_ca_bundle "win32" (some (.ok "C:\\用户\\cacert.pem")) "C:\\T"
          ⟨[], ⟨[("C:\\用户\\cacert.pem", [97]),
                ("C:\\T\\sora2api\\certs\\cacert-ca978112ca1b.pem", [98, 99])], []⟩⟩
        = .ok (some (destStr "C:\\T" [97]), st) ∧
      st.fs.files = [("C:\\用户\\cacert.pem", [97]),
                     ("C:\\T\\sora2api\\certs\\cacert-ca978112ca1b.pem", [98, 99])] ∧
      fsLookup st.fs (destStr "C:\\T" [97]) = some [98, 99] ∧
      envGet st.env "CURL_CA_BUNDLE" = some (destStr "C:\\T" [97]) :=
  C10_preexisting_dest_kept "win32" "C:\\T" "C:\\用户\\cacert.pem" [97] [98, 99]
    ⟨[], ⟨[("C:\\用户\\cacert.pem", [97]),
          ("C:\\T\\sora2api\\certs\\cacert-ca978112ca1b.pem", [98, 99])], []⟩⟩
    (by decide) (by decide) (by decide) (by decide) (by decide)

end CaBundle
